import Mathlib

/-!
Verification development for the kinoml PKIS2 dataset provider
(`kinoml/datasets/kinomescan/pkis2.py`).

The provider loads a CSV table whose rows are indexed by ligand SMILES
strings and whose columns are kinase names, and exposes three lazy,
memoizing dictionaries: `kinases` (name to `AminoAcidSequence`), `ligands`
(SMILES to `Ligand`) and `measurements` ((kinase, ligand) pair to
`PercentageDisplacementMeasurement`).

Entity classes (`AminoAcidSequence`, `Ligand`, `AssayConditions`,
`PercentageDisplacementMeasurement`), the `KINOMEScanMapper` helper and
the `defaultdictwithargs` memoizing-dictionary factory live in modules of
the repository outside the provided sources; those are modelled from the
spec, as marked in their doc comments.  Everything in
`PKIS2DatasetProvider` itself is translated from the source file.
-/

namespace KinoML

/-- Modelled from the spec: protein entity of `kinoml.core.protein`, an
"amino-acid sequence plus a name".  The constructor call in the source is
`AminoAcidSequence(sequence, header=name)`. -/
structure AminoAcidSequence where
  sequence : String
  header : String
deriving DecidableEq, Repr

/-- Modelled from the spec: ligand entity of `kinoml.core.ligand`, "a
chemical structure derived by parsing a SMILES string".  The source reads
the originating SMILES back via `ligand._provenance["smiles"]`, modelled
as the field `provenance_smiles`. -/
structure Ligand where
  provenance_smiles : String
deriving DecidableEq, Repr

/-- Modelled from the spec: `Ligand.from_smiles` parses a SMILES string
into a ligand whose provenance records that SMILES string. -/
def Ligand.from_smiles (smiles : String) : Ligand :=
  { provenance_smiles := smiles }

/-- Modelled from the spec: `kinoml.core.conditions.AssayConditions`, "a
fixed set of assay conditions (e.g., pH)".  The source only ever sets the
pH. -/
structure AssayConditions where
  pH : ℚ
deriving DecidableEq, Repr

/-- A Python value that can appear as a component of a measurement key:
the source type-checks key components with `isinstance` against
`AminoAcidSequence` and `Ligand`, so anything else (modelled by `str`)
only has to be distinguishable from those two classes. -/
inductive Entity
  | protein (a : AminoAcidSequence)
  | ligand (l : Ligand)
  | str (s : String)
deriving DecidableEq, Repr

/-- `isinstance(x, AminoAcidSequence)` on an `Entity`. -/
def Entity.isAminoAcidSequence : Entity → Bool
  | .protein _ => true
  | _ => false

/-- `isinstance(x, Ligand)` on an `Entity`. -/
def Entity.isLigand : Entity → Bool
  | .ligand _ => true
  | _ => false

/-- Modelled from the spec:
`kinoml.core.measurements.PercentageDisplacementMeasurement`, which
"associates one protein, one ligand, one scalar value, and a fixed set of
assay conditions".  The source builds it as
`PercentageDisplacementMeasurement(measurement, conditions=..., components=[kinase, ligand])`. -/
structure PercentageDisplacementMeasurement where
  value : ℚ
  conditions : AssayConditions
  components : List Entity
deriving DecidableEq, Repr

/-- Exceptions raised by the code paths under study: Python
`AssertionError`, `TypeError` and `KeyError`. -/
inductive PyErr
  | assertionError (msg : String)
  | typeError (msg : String)
  | keyError (key : String)
deriving DecidableEq, Repr

/-- The result of `pandas.read_csv(..., index_col=0)`: a matrix with a row
index of SMILES strings and a column index of kinase names.  `body` holds
the rows of percentage-displacement values in index order. -/
structure DataFrame where
  index : List String
  columns : List String
  body : List (List ℚ)
deriving DecidableEq, Repr

/-- Position of the first occurrence of `s` in `l`, if any. -/
def idxOf : List String → String → Option Nat
  | [], _ => none
  | x :: xs, s => if x = s then some 0 else (idxOf xs s).map (· + 1)

/-- `df.loc[row, col]`: scalar lookup by row label and column label;
raises `KeyError` when either label is absent. -/
def DataFrame.loc (df : DataFrame) (row col : String) : Except PyErr ℚ :=
  match idxOf df.index row with
  | none => .error (.keyError row)
  | some i =>
    match idxOf df.columns col with
    | none => .error (.keyError col)
    | some j =>
      match df.body.get? i with
      | none => .error (.keyError row)
      | some r =>
        match r.get? j with
        | none => .error (.keyError col)
        | some v => .ok v

/-- A raw CSV file, already split into cells: a header row naming the
columns and the data rows. -/
structure RawCSV where
  header : List String
  rows : List (List String)

/-- Modelled from the spec: the memoizing dictionary produced by
`kinoml.utils.defaultdictwithargs(call)` stores its entries as
key-to-value associations; lookups "materialize an object only on first
lookup and reuse it thereafter". -/
abbrev Cache (K V : Type) := List (K × V)

/-- Dictionary membership test: the stored value for `k`, if present. -/
def cacheFind {K V : Type} [DecidableEq K] : Cache K V → K → Option V
  | [], _ => none
  | (k', v) :: rest, k => if k' = k then some v else cacheFind rest k

/-- Modelled from the spec: a lookup in a `defaultdictwithargs(f)` dict.
On a hit the stored object is returned unchanged; on a miss `f key` is
constructed, stored and returned.  The `Bool` records whether the
construction function ran. -/
def cacheGet {K V : Type} [DecidableEq K] (f : K → V) (c : Cache K V) (k : K) :
    V × Cache K V × Bool :=
  match cacheFind c k with
  | some v => (v, c, false)
  | none => (f k, c ++ [(k, f k)], true)

/-- Modelled from the spec: a lookup in a `defaultdictwithargs(f)` dict
whose construction function can raise.  When `f key` raises, the
exception propagates and nothing is stored. -/
def cacheGetE {K V : Type} [DecidableEq K] (f : K → Except PyErr V)
    (c : Cache K V) (k : K) : Except PyErr (V × Cache K V × Bool) :=
  match cacheFind c k with
  | some v => .ok (v, c, false)
  | none =>
    match f k with
    | .ok v => .ok (v, c ++ [(k, v)], true)
    | .error e => .error e

/-- A run of lookups against a `cacheGet` dictionary, recording for each
lookup its key and whether the construction function ran. -/
def runLookups {K V : Type} [DecidableEq K] (f : K → V) :
    Cache K V → List K → Cache K V × List (K × Bool)
  | c, [] => (c, [])
  | c, k :: ks =>
    let r := cacheGet f c k
    let rest := runLookups f r.2.1 ks
    (rest.1, (k, r.2.2) :: rest.2)

/-- How many lookups of key `k` in the recorded run invoked the
construction function. -/
def constructionCount {K : Type} [DecidableEq K] : List (K × Bool) → K → Nat
  | [], _ => 0
  | (k', b) :: rest, k =>
    (if k' = k then (if b then 1 else 0) else 0) + constructionCount rest k

/-- Modelled from the spec:
`kinoml.datasets.kinomescan.utils.KINOMEScanMapper.sequence_for_name`
"given a kinase display name, returns its amino-acid sequence string from
a reference table" and "fails (or signals) when a name is absent from the
reference table".  The reference table is abstracted as a partial map
`mapper` from names to sequences. -/
def sequence_for_name (mapper : String → Option String) (name : String) :
    Except PyErr String :=
  match mapper name with
  | some s => .ok s
  | none => .error (.keyError name)

/-- The state of a `PKIS2DatasetProvider` instance: the loaded dataframe,
the two convenience lists and the three lazy dictionaries. -/
structure PKIS2DatasetProvider where
  _df : DataFrame
  available_kinases : List String
  available_ligands : List String
  kinases : Cache String AminoAcidSequence
  ligands : Cache (String ⊕ Ligand) Ligand
  measurements : Cache (List Entity) PercentageDisplacementMeasurement
deriving DecidableEq, Repr

namespace PKIS2DatasetProvider

/-- `ASSAY_CONDITIONS = AssayConditions(pH=7.0)`. -/
def ASSAY_CONDITIONS : AssayConditions := { pH := 7 }

/-- `_read_dataframe`: `pd.read_csv(filename, usecols=[3] + list(range(7, 413)), index_col=0)`.
Column 3 holds the SMILES strings and becomes the row index; columns
7..412 hold the kinase data and become the dataframe columns.  `parse`
abstracts the library's string-to-number cell conversion. -/
def _read_dataframe (parse : String → ℚ) (raw : RawCSV) : DataFrame :=
  { index := raw.rows.map (fun r => r.getD 3 "")
    columns := (raw.header.drop 7).take 406
    body := raw.rows.map (fun r => ((r.drop 7).take 406).map parse) }

/-- `__init__`: load the dataframe, record the available kinase names and
SMILES, and create the three (initially empty) lazy dictionaries. -/
def init (df : DataFrame) : PKIS2DatasetProvider :=
  { _df := df
    available_kinases := df.columns
    available_ligands := df.index
    kinases := []
    ligands := []
    measurements := [] }

/-- `_process_kinase`: look the name up in the class-level
`_kinase_name_mapper` and wrap the sequence in an `AminoAcidSequence`
with the name as header. -/
def _process_kinase (mapper : String → Option String) (name : String) :
    Except PyErr AminoAcidSequence :=
  match sequence_for_name mapper name with
  | .ok sequence => .ok { sequence := sequence, header := name }
  | .error e => .error e

/-- `_process_ligand`: parse a string key as SMILES, pass any other key
through unchanged. -/
def _process_ligand : String ⊕ Ligand → Ligand
  | .inl s => Ligand.from_smiles s
  | .inr l => l

/-- `_process_measurement`: assert the key is a pair, type-check both
components, read the table cell at (ligand SMILES, kinase header) and
wrap it in a `PercentageDisplacementMeasurement` with the class-level
assay conditions. -/
def _process_measurement (df : DataFrame) :
    List Entity → Except PyErr PercentageDisplacementMeasurement
  | [kinase, ligand] =>
    match kinase with
    | .protein k =>
      match ligand with
      | .ligand l =>
        match df.loc l.provenance_smiles k.header with
        | .ok measurement =>
          .ok { value := measurement
                conditions := ASSAY_CONDITIONS
                components := [kinase, ligand] }
        | .error e => .error e
      | _ => .error (.typeError "`ligand` must be a kinoml.core.ligand.Ligand object")
    | _ => .error (.typeError "`kinase` must be a kinoml.core.protein.AminoAcidSequence object")
  | _ => .error (.assertionError "key must be (kinase, ligand)")

/-- `provider.kinases[name]`: lazy dictionary access backed by
`_process_kinase`. -/
def getKinase (mapper : String → Option String) (p : PKIS2DatasetProvider)
    (name : String) : Except PyErr (AminoAcidSequence × PKIS2DatasetProvider) :=
  match cacheGetE (_process_kinase mapper) p.kinases name with
  | .ok (v, c, _) => .ok (v, { p with kinases := c })
  | .error e => .error e

/-- `provider.ligands[key]`: lazy dictionary access backed by
`_process_ligand`. -/
def getLigand (p : PKIS2DatasetProvider) (key : String ⊕ Ligand) :
    Ligand × PKIS2DatasetProvider :=
  ((cacheGet _process_ligand p.ligands key).1,
   { p with ligands := (cacheGet _process_ligand p.ligands key).2.1 })

/-- `provider.measurements[kinase, ligand]`: lazy dictionary access backed
by `_process_measurement`. -/
def getMeasurement (p : PKIS2DatasetProvider) (key : List Entity) :
    Except PyErr (PercentageDisplacementMeasurement × PKIS2DatasetProvider) :=
  match cacheGetE (_process_measurement p._df) p.measurements key with
  | .ok (v, c, _) => .ok (v, { p with measurements := c })
  | .error e => .error e

end PKIS2DatasetProvider

/-! Concrete fixtures used by the witness theorems. -/

/-- A 1×1 sample table: one ligand row ("CCO"), one kinase column
("ABL2"), cell value 55. -/
def sampleDF : DataFrame :=
  { index := ["CCO"], columns := ["ABL2"], body := [[55]] }

/-- A sample name-to-sequence reference table knowing only "ABL2". -/
def sampleMapper : String → Option String :=
  fun n => if n = "ABL2" then some "MSEQ" else none

/-- A sample provider whose kinases dictionary already holds an entry. -/
def sampleProviderPre : PKIS2DatasetProvider :=
  { PKIS2DatasetProvider.init sampleDF with
      kinases := [("OTHER", { sequence := "QQQ", header := "OTHER" })] }

/-- `sampleProviderPre` after the lookup `kinases["ABL2"]`. -/
def sampleProviderPost : PKIS2DatasetProvider :=
  { sampleProviderPre with
      kinases := [("OTHER", { sequence := "QQQ", header := "OTHER" }),
                  ("ABL2", { sequence := "MSEQ", header := "ABL2" })] }

/-! Dictionary lemmas. -/

theorem cacheFind_cons {K V : Type} [DecidableEq K] (k' : K) (v' : V)
    (rest : Cache K V) (k : K) :
    cacheFind ((k', v') :: rest) k = if k' = k then some v' else cacheFind rest k := rfl

theorem cacheFind_append_of_some {K V : Type} [DecidableEq K] {c : Cache K V}
    {k : K} {v : V} (d : Cache K V) (h : cacheFind c k = some v) :
    cacheFind (c ++ d) k = some v := by
  induction c with
  | nil => simp [cacheFind] at h
  | cons p rest ih =>
    obtain ⟨k', v'⟩ := p
    by_cases hk : k' = k
    · rw [List.cons_append, cacheFind_cons, if_pos hk]
      rw [cacheFind_cons, if_pos hk] at h
      exact h
    · rw [List.cons_append, cacheFind_cons, if_neg hk]
      rw [cacheFind_cons, if_neg hk] at h
      exact ih h

theorem cacheFind_append_of_none {K V : Type} [DecidableEq K] {c : Cache K V}
    {k : K} (d : Cache K V) (h : cacheFind c k = none) :
    cacheFind (c ++ d) k = cacheFind d k := by
  induction c with
  | nil => simp
  | cons p rest ih =>
    obtain ⟨k', v'⟩ := p
    by_cases hk : k' = k
    · rw [cacheFind_cons, if_pos hk] at h
      exact absurd h (by simp)
    · rw [List.cons_append, cacheFind_cons, if_neg hk]
      rw [cacheFind_cons, if_neg hk] at h
      exact ih h

theorem cacheFind_singleton {K V : Type} [DecidableEq K] (k k₀ : K) (v : V) :
    cacheFind [(k, v)] k₀ = if k = k₀ then some v else none := by
  unfold cacheFind
  rfl

/-- The dictionary after a lookup of `k`: the entry for `k` is the object
the lookup returned, and every other key's entry is untouched. -/
theorem cacheFind_cacheGet {K V : Type} [DecidableEq K] (f : K → V)
    (c : Cache K V) (k k₀ : K) :
    cacheFind (cacheGet f c k).2.1 k₀ =
      if k₀ = k then some (cacheGet f c k).1 else cacheFind c k₀ := by
  unfold cacheGet
  cases h : cacheFind c k with
  | some v =>
    simp only
    by_cases hk : k₀ = k
    · subst hk
      rw [if_pos rfl]
      exact h
    · rw [if_neg hk]
  | none =>
    simp only
    by_cases hk : k₀ = k
    · subst hk
      rw [if_pos rfl, cacheFind_append_of_none _ h, cacheFind_singleton, if_pos rfl]
    · rw [if_neg hk]
      cases hc : cacheFind c k₀ with
      | some w =>
        rw [cacheFind_append_of_some _ hc]
      | none =>
        rw [cacheFind_append_of_none _ hc, cacheFind_singleton,
          if_neg (fun h' => hk (Eq.symm h'))]

/-- A lookup of a key the dictionary already holds is a pure hit. -/
theorem cacheGet_hit {K V : Type} [DecidableEq K] {f : K → V} {c : Cache K V}
    {k : K} {v : V} (h : cacheFind c k = some v) :
    cacheGet f c k = (v, c, false) := by
  unfold cacheGet
  rw [h]

/-- A second lookup of the same key is a pure cache hit: it returns the
same object, changes nothing and does not construct. -/
theorem cacheGet_second_lookup {K V : Type} [DecidableEq K] (f : K → V)
    (c : Cache K V) (k : K) :
    cacheGet f (cacheGet f c k).2.1 k = ((cacheGet f c k).1, (cacheGet f c k).2.1, false) := by
  have h := cacheFind_cacheGet f c k k
  rw [if_pos rfl] at h
  exact cacheGet_hit h

/-- Same as `cacheFind_cacheGet` for the fallible variant, conditional on
the lookup having succeeded. -/
theorem cacheFind_cacheGetE {K V : Type} [DecidableEq K] {f : K → Except PyErr V}
    {c : Cache K V} {k : K} {v : V} {c' : Cache K V} {b : Bool}
    (h : cacheGetE f c k = .ok (v, c', b)) (k₀ : K) :
    cacheFind c' k₀ = if k₀ = k then some v else cacheFind c k₀ := by
  unfold cacheGetE at h
  cases hf : cacheFind c k with
  | some w =>
    rw [hf] at h
    simp only [Except.ok.injEq, Prod.mk.injEq] at h
    obtain ⟨hv, hc, -⟩ := h
    subst hv
    subst hc
    by_cases hk : k₀ = k
    · subst hk
      rw [if_pos rfl]
      exact hf
    · rw [if_neg hk]
  | none =>
    rw [hf] at h
    cases hfk : f k with
    | ok w =>
      rw [hfk] at h
      simp only [Except.ok.injEq, Prod.mk.injEq] at h
      obtain ⟨hv, hc, -⟩ := h
      subst hv
      subst hc
      by_cases hk : k₀ = k
      · subst hk
        rw [if_pos rfl, cacheFind_append_of_none _ hf, cacheFind_singleton, if_pos rfl]
      · rw [if_neg hk]
        cases hc₀ : cacheFind c k₀ with
        | some w₀ =>
          rw [cacheFind_append_of_some _ hc₀]
        | none =>
          rw [cacheFind_append_of_none _ hc₀, cacheFind_singleton,
            if_neg (fun h' => hk (Eq.symm h'))]
    | error e =>
      rw [hfk] at h
      exact absurd h (by simp)

/-- A fallible lookup of a key the dictionary already holds is a pure
hit. -/
theorem cacheGetE_hit {K V : Type} [DecidableEq K] {f : K → Except PyErr V}
    {c : Cache K V} {k : K} {v : V} (h : cacheFind c k = some v) :
    cacheGetE f c k = .ok (v, c, false) := by
  unfold cacheGetE
  rw [h]

/-- A successful fallible lookup on a dictionary that already holds the
key is a pure hit. -/
theorem cacheGetE_second_lookup {K V : Type} [DecidableEq K] {f : K → Except PyErr V}
    {c : Cache K V} {k : K} {v : V} {c' : Cache K V} {b : Bool}
    (h : cacheGetE f c k = .ok (v, c', b)) :
    cacheGetE f c' k = .ok (v, c', false) := by
  have hfind := cacheFind_cacheGetE h k
  rw [if_pos rfl] at hfind
  exact cacheGetE_hit hfind

theorem constructionCount_cons {K : Type} [DecidableEq K] (k₁ : K) (b : Bool)
    (log : List (K × Bool)) (k : K) :
    constructionCount ((k₁, b) :: log) k =
      (if k₁ = k then (if b then 1 else 0) else 0) + constructionCount log k := rfl

/-- A key the dictionary already holds is never constructed in any later
run of lookups. -/
theorem constructionCount_runLookups_of_cached {K V : Type} [DecidableEq K]
    (f : K → V) (ks : List K) (k : K) (v : V) :
    ∀ c : Cache K V, cacheFind c k = some v →
      constructionCount (runLookups f c ks).2 k = 0 := by
  induction ks with
  | nil =>
    intro c _
    rfl
  | cons k' ks ih =>
    intro c hc
    simp only [runLookups]
    rw [constructionCount_cons]
    have hstep := cacheFind_cacheGet f c k' k
    by_cases hk : k' = k
    · subst hk
      rw [cacheGet_hit hc]
      have hrest := ih c hc
      simpa using hrest
    · have hsame : cacheFind (cacheGet f c k').2.1 k = some v := by
        rw [hstep, if_neg (fun h => hk (Eq.symm h))]
        exact hc
      have hrest := ih (cacheGet f c k').2.1 hsame
      rw [if_neg hk, hrest]

/-- In any run of lookups against any starting dictionary, each key is
constructed at most once. -/
theorem constructionCount_runLookups_le_one {K V : Type} [DecidableEq K]
    (f : K → V) (ks : List K) (k : K) :
    ∀ c : Cache K V, constructionCount (runLookups f c ks).2 k ≤ 1 := by
  induction ks with
  | nil =>
    intro c
    exact Nat.zero_le 1
  | cons k' ks ih =>
    intro c
    simp only [runLookups]
    rw [constructionCount_cons]
    have hstep := cacheFind_cacheGet f c k' k
    by_cases hk : k' = k
    · subst hk
      cases hc : cacheFind c k' with
      | some v =>
        rw [cacheGet_hit hc]
        have hrest := constructionCount_runLookups_of_cached f ks k' v c hc
        simp [hrest]
      | none =>
        have hmem : cacheFind (cacheGet f c k').2.1 k' = some (cacheGet f c k').1 := by
          rw [hstep, if_pos rfl]
        have hrest := constructionCount_runLookups_of_cached f ks k' _ _ hmem
        rw [hrest, if_pos rfl]
        split <;> omega
    · rw [if_neg hk]
      have hrest := ih (cacheGet f c k').2.1
      omega

/-! Table-lookup lemmas. -/

theorem idxOf_mem (l : List String) (s : String) (hs : s ∈ l) :
    ∃ i, idxOf l s = some i ∧ i < l.length := by
  induction l with
  | nil => cases hs
  | cons x xs ih =>
    by_cases hx : x = s
    · exact ⟨0, by simp [idxOf, hx], by simp⟩
    · rcases List.mem_cons.mp hs with h | h
      · exact absurd h.symm hx
      · obtain ⟨i, hi, hlt⟩ := ih h
        refine ⟨i + 1, ?_, ?_⟩
        · simp [idxOf, hx, hi]
        · simp only [List.length_cons]
          omega

theorem get?_of_lt {α : Type} (l : List α) :
    ∀ i : Nat, i < l.length → ∃ x, l.get? i = some x ∧ x ∈ l := by
  induction l with
  | nil =>
    intro i h
    simp at h
  | cons x xs ih =>
    intro i h
    cases i with
    | zero => exact ⟨x, rfl, List.mem_cons_self x xs⟩
    | succ n =>
      obtain ⟨y, hy, hmem⟩ := ih n (by simp only [List.length_cons] at h; omega)
      exact ⟨y, by simpa [List.get?] using hy, List.mem_cons_of_mem x hmem⟩

/-- `df.loc` can only raise `KeyError`, never any other exception. -/
theorem loc_error_keyError {df : DataFrame} {r c : String} {e : PyErr}
    (h : df.loc r c = .error e) : ∃ key, e = .keyError key := by
  unfold DataFrame.loc at h
  cases h1 : idxOf df.index r with
  | none =>
    rw [h1] at h
    simp only [Except.error.injEq] at h
    exact ⟨r, h.symm⟩
  | some i =>
    rw [h1] at h
    simp only at h
    cases h2 : idxOf df.columns c with
    | none =>
      rw [h2] at h
      simp only [Except.error.injEq] at h
      exact ⟨c, h.symm⟩
    | some j =>
      rw [h2] at h
      simp only at h
      cases h3 : df.body.get? i with
      | none =>
        rw [h3] at h
        simp only [Except.error.injEq] at h
        exact ⟨r, h.symm⟩
      | some row =>
        rw [h3] at h
        simp only at h
        cases h4 : row.get? j with
        | none =>
          rw [h4] at h
          simp only [Except.error.injEq] at h
          exact ⟨c, h.symm⟩
        | some v =>
          rw [h4] at h
          exact absurd h (by simp)

/-- On a rectangular dataframe, `df.loc` succeeds for every row label in
the index and column label in the columns. -/
theorem loc_ok_of_mem {df : DataFrame} {s c : String}
    (hlen : df.body.length = df.index.length)
    (hrect : ∀ r ∈ df.body, r.length = df.columns.length)
    (hs : s ∈ df.index) (hc : c ∈ df.columns) :
    ∃ v, df.loc s c = .ok v := by
  obtain ⟨i, hi, hilt⟩ := idxOf_mem df.index s hs
  obtain ⟨j, hj, hjlt⟩ := idxOf_mem df.columns c hc
  obtain ⟨row, hrow, hrowmem⟩ := get?_of_lt df.body i (by rw [hlen]; exact hilt)
  obtain ⟨v, hv, -⟩ := get?_of_lt row j (by rw [hrect row hrowmem]; exact hjlt)
  refine ⟨v, ?_⟩
  unfold DataFrame.loc
  rw [hi]
  simp only
  rw [hj]
  simp only
  rw [hrow]
  simp only
  rw [hv]

/-! Provider-level lemmas shared by the claim theorems. -/

open PKIS2DatasetProvider

/-- When the table cell exists, `_process_measurement` on a well-typed
pair returns exactly the measurement built from that cell. -/
theorem process_measurement_ok {df : DataFrame} {s c seq : String} {v : ℚ}
    (h : df.loc s c = .ok v) :
    _process_measurement df
        [.protein { sequence := seq, header := c }, .ligand (Ligand.from_smiles s)] =
      .ok { value := v, conditions := ASSAY_CONDITIONS,
            components := [.protein { sequence := seq, header := c },
                           .ligand (Ligand.from_smiles s)] } := by
  simp [_process_measurement, Ligand.from_smiles, h]

/-- A first measurement lookup on a freshly initialised provider runs the
construction function and stores its result. -/
theorem getMeasurement_init_ok {df : DataFrame} {key : List Entity}
    {m : PercentageDisplacementMeasurement}
    (h : _process_measurement df key = .ok m) :
    getMeasurement (init df) key = .ok (m, { init df with measurements := [(key, m)] }) := by
  simp [getMeasurement, cacheGetE, cacheFind, init, h]

/-- A kinase lookup whose key the dictionary already holds returns the
stored object and leaves the provider unchanged. -/
theorem getKinase_hit {mapper : String → Option String} {p : PKIS2DatasetProvider}
    {name : String} {v : AminoAcidSequence}
    (h : cacheGetE (_process_kinase mapper) p.kinases name = .ok (v, p.kinases, false)) :
    getKinase mapper p name = .ok (v, p) := by
  unfold getKinase
  rw [h]

/-- A ligand lookup whose key the dictionary already holds returns the
stored object and leaves the provider unchanged. -/
theorem getLigand_hit {p : PKIS2DatasetProvider} {key : String ⊕ Ligand} {v : Ligand}
    (h : cacheFind p.ligands key = some v) :
    getLigand p key = (v, p) := by
  unfold getLigand
  rw [cacheGet_hit h]

/-- A measurement lookup whose key the dictionary already holds returns
the stored object and leaves the provider unchanged. -/
theorem getMeasurement_hit {p : PKIS2DatasetProvider} {key : List Entity}
    {m : PercentageDisplacementMeasurement}
    (h : cacheGetE (_process_measurement p._df) p.measurements key =
      .ok (m, p.measurements, false)) :
    getMeasurement p key = .ok (m, p) := by
  unfold getMeasurement
  rw [h]

/-! Claim theorems. -/

/-- C2: for every (kinase, ligand) pair present in the loaded table,
looking up the measurement for that pair produces exactly one measurement
object whose scalar value equals the table cell at row = the ligand's
SMILES string and column = the kinase's name. -/
theorem claim_C2 (df : DataFrame) (s c seq : String) (v : ℚ)
    (h : df.loc s c = .ok v) :
    _process_measurement df
        [.protein { sequence := seq, header := c }, .ligand (Ligand.from_smiles s)] =
      .ok { value := v, conditions := ASSAY_CONDITIONS,
            components := [.protein { sequence := seq, header := c },
                           .ligand (Ligand.from_smiles s)] } ∧
    getMeasurement (init df)
        [.protein { sequence := seq, header := c }, .ligand (Ligand.from_smiles s)] =
      .ok ({ value := v, conditions := ASSAY_CONDITIONS,
             components := [.protein { sequence := seq, header := c },
                            .ligand (Ligand.from_smiles s)] },
           { init df with
               measurements :=
                 [([.protein { sequence := seq, header := c },
                    .ligand (Ligand.from_smiles s)],
                   { value := v, conditions := ASSAY_CONDITIONS,
                     components := [.protein { sequence := seq, header := c },
                                    .ligand (Ligand.from_smiles s)] })] }) := by
  exact ⟨process_measurement_ok h, getMeasurement_init_ok (process_measurement_ok h)⟩

/-- C2 witness at a concrete 1×1 table. -/
theorem claim_C2_witness :
    _process_measurement sampleDF
        [.protein { sequence := "MSEQ", header := "ABL2" },
         .ligand (Ligand.from_smiles "CCO")] =
      .ok { value := 55, conditions := ASSAY_CONDITIONS,
            components := [.protein { sequence := "MSEQ", header := "ABL2" },
                           .ligand (Ligand.from_smiles "CCO")] } :=
  (claim_C2 sampleDF "CCO" "ABL2" "MSEQ" 55 rfl).1

/-- C3: for every kinase name absent from the name-to-sequence reference
table, constructing the kinase raises an error (a `KeyError` naming the
missing key); it never returns any `AminoAcidSequence`, in particular not
one with an empty sequence. -/
theorem claim_C3 (mapper : String → Option String) (name : String)
    (h : mapper name = none) :
    _process_kinase mapper name = .error (.keyError name) ∧
    ∀ a : AminoAcidSequence, _process_kinase mapper name ≠ .ok a := by
  have h1 : _process_kinase mapper name = .error (.keyError name) := by
    simp [_process_kinase, sequence_for_name, h]
  refine ⟨h1, fun a ha => ?_⟩
  rw [h1] at ha
  exact absurd ha (by simp)

/-- C3 witness at a mapper that knows no names. -/
theorem claim_C3_witness :
    _process_kinase (fun _ => none) "XYZ" = .error (.keyError "XYZ") :=
  (claim_C3 (fun _ => none) "XYZ" rfl).1

/-- C6: the tabular loader takes the single SMILES column (column 3) as
the row index and the contiguous kinase-name columns (7..412) as the
columns; after construction `available_ligands` equals the table's row
index and `available_kinases` equals the table's column names. -/
theorem claim_C6 (parse : String → ℚ) (raw : RawCSV) (df : DataFrame) :
    (_read_dataframe parse raw).index = raw.rows.map (fun r => r.getD 3 "") ∧
    (_read_dataframe parse raw).columns = (raw.header.drop 7).take 406 ∧
    (init df).available_ligands = df.index ∧
    (init df).available_kinases = df.columns ∧
    (init (_read_dataframe parse raw)).available_ligands =
      raw.rows.map (fun r => r.getD 3 "") ∧
    (init (_read_dataframe parse raw)).available_kinases =
      (raw.header.drop 7).take 406 :=
  ⟨rfl, rfl, rfl, rfl, rfl, rfl⟩

/-- C7: every measurement object the provider constructs carries the
single class-level assay conditions value, whose pH is 7. -/
theorem claim_C7 (df : DataFrame) (key : List Entity)
    (m : PercentageDisplacementMeasurement)
    (h : _process_measurement df key = .ok m) :
    m.conditions = ASSAY_CONDITIONS ∧ ASSAY_CONDITIONS.pH = 7 := by
  refine ⟨?_, rfl⟩
  rcases key with _ | ⟨a, _ | ⟨b, _ | ⟨x, t⟩⟩⟩
  · exact absurd h (by simp [_process_measurement])
  · exact absurd h (by simp [_process_measurement])
  · cases a with
    | protein k =>
      cases b with
      | ligand l =>
        cases hloc : df.loc l.provenance_smiles k.header with
        | ok v =>
          simp only [_process_measurement, hloc, Except.ok.injEq] at h
          rw [← h]
        | error e =>
          simp [_process_measurement, hloc] at h
      | protein k2 => simp [_process_measurement] at h
      | str s2 => simp [_process_measurement] at h
    | ligand l => simp [_process_measurement] at h
    | str s2 => simp [_process_measurement] at h
  · exact absurd h (by simp [_process_measurement])

/-- C7 witness at a concrete successful lookup. -/
theorem claim_C7_witness :
    ({ value := 55, conditions := ASSAY_CONDITIONS,
       components := [.protein { sequence := "MSEQ", header := "ABL2" },
                      .ligand (Ligand.from_smiles "CCO")] } :
        PercentageDisplacementMeasurement).conditions = ASSAY_CONDITIONS ∧
    ASSAY_CONDITIONS.pH = 7 :=
  claim_C7 sampleDF
    [.protein { sequence := "MSEQ", header := "ABL2" },
     .ligand (Ligand.from_smiles "CCO")]
    { value := 55, conditions := ASSAY_CONDITIONS,
      components := [.protein { sequence := "MSEQ", header := "ABL2" },
                     .ligand (Ligand.from_smiles "CCO")] }
    rfl

/-- C9: the ligands dictionary passes non-string keys through unchanged —
a key that is already a `Ligand` is returned as-is, while string keys are
parsed with `Ligand.from_smiles`. -/
theorem claim_C9 :
    (∀ l : Ligand, _process_ligand (Sum.inr l) = l) ∧
    (∀ s : String, _process_ligand (Sum.inl s) = Ligand.from_smiles s) ∧
    (∀ (p : PKIS2DatasetProvider) (l : Ligand),
      (∀ k v, cacheFind p.ligands k = some v → v = _process_ligand k) →
      (getLigand p (Sum.inr l)).1 = l) ∧
    ∀ (df : DataFrame) (l : Ligand), (getLigand (init df) (Sum.inr l)).1 = l := by
  refine ⟨fun l => rfl, fun s => rfl, ?_, fun df l => rfl⟩
  intro p l hcons
  show (cacheGet _process_ligand p.ligands (Sum.inr l)).1 = l
  cases hf : cacheFind p.ligands (Sum.inr l) with
  | some v =>
    rw [cacheGet_hit hf]
    exact hcons _ v hf
  | none =>
    have hmiss : cacheGet _process_ligand p.ligands (Sum.inr l) =
        (_process_ligand (Sum.inr l),
         p.ligands ++ [(Sum.inr l, _process_ligand (Sum.inr l))], true) := by
      unfold cacheGet
      rw [hf]
    rw [hmiss]
    rfl

/-- C9 witness: a `Ligand` object used as a key comes back unchanged. -/
theorem claim_C9_witness :
    (getLigand (init sampleDF) (Sum.inr { provenance_smiles := "CCO" })).1 =
      { provenance_smiles := "CCO" } := by
  refine claim_C9.2.2.1 (init sampleDF) { provenance_smiles := "CCO" } ?_
  intro k v h
  simp [init, cacheFind] at h

/-- C10: a measurement lookup requires its key to be a pair of length
exactly 2 — any other length fails with the assertion error, regardless
of the table or the element types, and on keys of length 2 the assertion
branch is unreachable. -/
theorem claim_C10 (df : DataFrame) :
    (∀ key : List Entity, key.length ≠ 2 →
      _process_measurement df key =
        .error (.assertionError "key must be (kinase, ligand)")) ∧
    ∀ (a b : Entity) (msg : String),
      _process_measurement df [a, b] ≠ .error (.assertionError msg) := by
  constructor
  · intro key hlen
    rcases key with _ | ⟨a, _ | ⟨b, _ | ⟨x, t⟩⟩⟩
    · rfl
    · rfl
    · exact absurd rfl hlen
    · rfl
  · intro a b msg h
    cases a with
    | protein k =>
      cases b with
      | ligand l =>
        cases hloc : df.loc l.provenance_smiles k.header with
        | ok v => simp [_process_measurement, hloc] at h
        | error e =>
          simp only [_process_measurement, hloc, Except.error.injEq] at h
          obtain ⟨key, hkey⟩ := loc_error_keyError hloc
          rw [hkey] at h
          exact absurd h (by simp)
      | protein k2 => simp [_process_measurement] at h
      | str s2 => simp [_process_measurement] at h
    | ligand l => simp [_process_measurement] at h
    | str s2 => simp [_process_measurement] at h

/-- C10 witness: the empty key fails the length assertion. -/
theorem claim_C10_witness :
    _process_measurement sampleDF [] =
      .error (.assertionError "key must be (kinase, ligand)") :=
  (claim_C10 sampleDF).1 [] (by decide)

/-- C1: every distinct key maps to at most one constructed instance for
the life of the provider.  Generically: a second lookup of the same key
is a pure hit returning the stored object without constructing; over any
run of lookups from an empty dictionary each key is constructed at most
once; a lookup stores its result under its key and evicts nothing.  At
the provider level the same holds for the kinases, ligands and
measurements dictionaries. -/
theorem claim_C1 :
    (∀ (K V : Type) [DecidableEq K] (f : K → V) (c : Cache K V) (k : K),
      cacheGet f (cacheGet f c k).2.1 k =
        ((cacheGet f c k).1, (cacheGet f c k).2.1, false)) ∧
    (∀ (K V : Type) [DecidableEq K] (f : K → V) (ks : List K) (k : K),
      constructionCount (runLookups f ([] : Cache K V) ks).2 k ≤ 1) ∧
    (∀ (K V : Type) [DecidableEq K] (f : K → V) (c : Cache K V) (k k₀ : K),
      cacheFind (cacheGet f c k).2.1 k₀ =
        if k₀ = k then some (cacheGet f c k).1 else cacheFind c k₀) ∧
    (∀ (mapper : String → Option String) (p : PKIS2DatasetProvider) (name : String)
        (v : AminoAcidSequence) (p' : PKIS2DatasetProvider),
      getKinase mapper p name = .ok (v, p') → getKinase mapper p' name = .ok (v, p')) ∧
    (∀ (p : PKIS2DatasetProvider) (key : String ⊕ Ligand),
      getLigand (getLigand p key).2 key = ((getLigand p key).1, (getLigand p key).2)) ∧
    (∀ (p : PKIS2DatasetProvider) (key : List Entity)
        (m : PercentageDisplacementMeasurement) (p' : PKIS2DatasetProvider),
      getMeasurement p key = .ok (m, p') → getMeasurement p' key = .ok (m, p')) := by
  refine ⟨fun K V _ f c k => cacheGet_second_lookup f c k,
          fun K V _ f ks k => constructionCount_runLookups_le_one f ks k [],
          fun K V _ f c k k₀ => cacheFind_cacheGet f c k k₀, ?_, ?_, ?_⟩
  · intro mapper p name v p' h
    unfold getKinase at h
    cases hE : cacheGetE (_process_kinase mapper) p.kinases name with
    | error e =>
      rw [hE] at h
      exact absurd h (by simp)
    | ok t =>
      obtain ⟨v₁, c₁, b₁⟩ := t
      rw [hE] at h
      simp only [Except.ok.injEq, Prod.mk.injEq] at h
      obtain ⟨hv, hp⟩ := h
      subst hv
      subst hp
      have h2 := cacheGetE_second_lookup hE
      exact getKinase_hit h2
  · intro p key
    have hfind : cacheFind (cacheGet _process_ligand p.ligands key).2.1 key =
        some (cacheGet _process_ligand p.ligands key).1 := by
      rw [cacheFind_cacheGet, if_pos rfl]
    exact getLigand_hit hfind
  · intro p key m p' h
    unfold getMeasurement at h
    cases hE : cacheGetE (_process_measurement p._df) p.measurements key with
    | error e =>
      rw [hE] at h
      exact absurd h (by simp)
    | ok t =>
      obtain ⟨m₁, c₁, b₁⟩ := t
      rw [hE] at h
      simp only [Except.ok.injEq, Prod.mk.injEq] at h
      obtain ⟨hv, hp⟩ := h
      subst hv
      subst hp
      have h2 := cacheGetE_second_lookup hE
      exact getMeasurement_hit h2

/-- C1 witness: a repeated kinase lookup at a concrete provider returns
the cached object and leaves the provider unchanged. -/
theorem claim_C1_witness :
    getKinase sampleMapper sampleProviderPost "ABL2" =
      .ok ({ sequence := "MSEQ", header := "ABL2" }, sampleProviderPost) :=
  claim_C1.2.2.2.1 sampleMapper sampleProviderPre "ABL2"
    { sequence := "MSEQ", header := "ABL2" } sampleProviderPost rfl

/-- C4: measurement construction raises `TypeError` exactly when a
component of a length-2 key is wrong-typed: the first component is not an
`AminoAcidSequence` or the second is not a `Ligand`.  When both are
well-typed no `TypeError` is raised. -/
theorem claim_C4 (df : DataFrame) (a b : Entity) :
    (∃ msg, _process_measurement df [a, b] = .error (.typeError msg)) ↔
      ¬ (a.isAminoAcidSequence = true ∧ b.isLigand = true) := by
  constructor
  · rintro ⟨msg, hmsg⟩ ⟨ha, hb⟩
    cases a with
    | protein k =>
      cases b with
      | ligand l =>
        cases hloc : df.loc l.provenance_smiles k.header with
        | ok v => simp [_process_measurement, hloc] at hmsg
        | error e =>
          simp only [_process_measurement, hloc, Except.error.injEq] at hmsg
          obtain ⟨key, hkey⟩ := loc_error_keyError hloc
          rw [hkey] at hmsg
          exact absurd hmsg (by simp)
      | protein k2 => simp [Entity.isLigand] at hb
      | str s2 => simp [Entity.isLigand] at hb
    | ligand l => simp [Entity.isAminoAcidSequence] at ha
    | str s2 => simp [Entity.isAminoAcidSequence] at ha
  · intro hneg
    cases a with
    | protein k =>
      cases b with
      | ligand l => exact absurd ⟨rfl, rfl⟩ hneg
      | protein k2 =>
        exact ⟨"`ligand` must be a kinoml.core.ligand.Ligand object", rfl⟩
      | str s2 =>
        exact ⟨"`ligand` must be a kinoml.core.ligand.Ligand object", rfl⟩
    | ligand l =>
      exact ⟨"`kinase` must be a kinoml.core.protein.AminoAcidSequence object", rfl⟩
    | str s2 =>
      exact ⟨"`kinase` must be a kinoml.core.protein.AminoAcidSequence object", rfl⟩

/-- C4 witness: a key of two plain strings raises `TypeError`. -/
theorem claim_C4_witness :
    ∃ msg, _process_measurement sampleDF [.str "x", .str "y"] =
      .error (.typeError msg) :=
  (claim_C4 sampleDF (.str "x") (.str "y")).mpr
    (by simp [Entity.isAminoAcidSequence])

/-- C5: on a rectangular loaded table, for every kinase name in
`available_kinases` and every SMILES in `available_ligands`, looking up
the measurement keyed by the corresponding (kinase object, ligand object)
pair succeeds and yields a `PercentageDisplacementMeasurement`. -/
theorem claim_C5 (df : DataFrame) (s c seq : String)
    (hlen : df.body.length = df.index.length)
    (hrect : ∀ r ∈ df.body, r.length = df.columns.length)
    (hc : c ∈ (init df).available_kinases)
    (hs : s ∈ (init df).available_ligands) :
    ∃ v : ℚ,
      _process_measurement df
          [.protein { sequence := seq, header := c }, .ligand (Ligand.from_smiles s)] =
        .ok { value := v, conditions := ASSAY_CONDITIONS,
              components := [.protein { sequence := seq, header := c },
                             .ligand (Ligand.from_smiles s)] } ∧
      getMeasurement (init df)
          [.protein { sequence := seq, header := c }, .ligand (Ligand.from_smiles s)] =
        .ok ({ value := v, conditions := ASSAY_CONDITIONS,
               components := [.protein { sequence := seq, header := c },
                              .ligand (Ligand.from_smiles s)] },
             { init df with
                 measurements :=
                   [([.protein { sequence := seq, header := c },
                      .ligand (Ligand.from_smiles s)],
                     { value := v, conditions := ASSAY_CONDITIONS,
                       components := [.protein { sequence := seq, header := c },
                                      .ligand (Ligand.from_smiles s)] })] }) := by
  obtain ⟨v, hv⟩ := loc_ok_of_mem hlen hrect hs hc
  exact ⟨v, process_measurement_ok hv, getMeasurement_init_ok (process_measurement_ok hv)⟩

/-- C5 witness at the concrete 1×1 sample table. -/
theorem claim_C5_witness :
    ∃ v : ℚ,
      _process_measurement sampleDF
          [.protein { sequence := "MSEQ", header := "ABL2" },
           .ligand (Ligand.from_smiles "CCO")] =
        .ok { value := v, conditions := ASSAY_CONDITIONS,
              components := [.protein { sequence := "MSEQ", header := "ABL2" },
                             .ligand (Ligand.from_smiles "CCO")] } ∧
      getMeasurement (init sampleDF)
          [.protein { sequence := "MSEQ", header := "ABL2" },
           .ligand (Ligand.from_smiles "CCO")] =
        .ok ({ value := v, conditions := ASSAY_CONDITIONS,
               components := [.protein { sequence := "MSEQ", header := "ABL2" },
                              .ligand (Ligand.from_smiles "CCO")] },
             { init sampleDF with
                 measurements :=
                   [([.protein { sequence := "MSEQ", header := "ABL2" },
                      .ligand (Ligand.from_smiles "CCO")],
                     { value := v, conditions := ASSAY_CONDITIONS,
                       components := [.protein { sequence := "MSEQ", header := "ABL2" },
                                      .ligand (Ligand.from_smiles "CCO")] })] }) :=
  claim_C5 sampleDF "CCO" "ABL2" "MSEQ" rfl (by decide) (by decide) (by decide)

/-- C8: no lookup mutates anything other than the dictionary it resolves:
after a kinase, ligand, or measurement lookup, the loaded dataframe,
`available_kinases`, `available_ligands` and the other two dictionaries
are unchanged, and every entry the resolved dictionary already held is
still present, unmodified. -/
theorem claim_C8 :
    (∀ (mapper : String → Option String) (p : PKIS2DatasetProvider) (name : String)
        (v : AminoAcidSequence) (p' : PKIS2DatasetProvider),
      getKinase mapper p name = .ok (v, p') →
      p'._df = p._df ∧ p'.available_kinases = p.available_kinases ∧
      p'.available_ligands = p.available_ligands ∧
      p'.ligands = p.ligands ∧ p'.measurements = p.measurements ∧
      ∀ k₀ v₀, cacheFind p.kinases k₀ = some v₀ →
        cacheFind p'.kinases k₀ = some v₀) ∧
    (∀ (p : PKIS2DatasetProvider) (key : String ⊕ Ligand),
      ((getLigand p key).2)._df = p._df ∧
      ((getLigand p key).2).available_kinases = p.available_kinases ∧
      ((getLigand p key).2).available_ligands = p.available_ligands ∧
      ((getLigand p key).2).kinases = p.kinases ∧
      ((getLigand p key).2).measurements = p.measurements ∧
      ∀ k₀ v₀, cacheFind p.ligands k₀ = some v₀ →
        cacheFind ((getLigand p key).2).ligands k₀ = some v₀) ∧
    (∀ (p : PKIS2DatasetProvider) (key : List Entity)
        (m : PercentageDisplacementMeasurement) (p' : PKIS2DatasetProvider),
      getMeasurement p key = .ok (m, p') →
      p'._df = p._df ∧ p'.available_kinases = p.available_kinases ∧
      p'.available_ligands = p.available_ligands ∧
      p'.kinases = p.kinases ∧ p'.ligands = p.ligands ∧
      ∀ k₀ v₀, cacheFind p.measurements k₀ = some v₀ →
        cacheFind p'.measurements k₀ = some v₀) := by
  refine ⟨?_, ?_, ?_⟩
  · intro mapper p name v p' h
    unfold getKinase at h
    cases hE : cacheGetE (_process_kinase mapper) p.kinases name with
    | error e =>
      rw [hE] at h
      exact absurd h (by simp)
    | ok t =>
      obtain ⟨v₁, c₁, b₁⟩ := t
      rw [hE] at h
      simp only [Except.ok.injEq, Prod.mk.injEq] at h
      obtain ⟨hv, hp⟩ := h
      subst hv
      subst hp
      refine ⟨rfl, rfl, rfl, rfl, rfl, ?_⟩
      intro k₀ v₀ h₀
      have hchar := cacheFind_cacheGetE hE k₀
      show cacheFind c₁ k₀ = some v₀
      by_cases hk : k₀ = name
      · subst hk
        have hhit : cacheGetE (_process_kinase mapper) p.kinases k₀ =
            .ok (v₀, p.kinases, false) := cacheGetE_hit h₀
        rw [hhit] at hE
        simp only [Except.ok.injEq, Prod.mk.injEq] at hE
        obtain ⟨hv₀, -, -⟩ := hE
        rw [hchar, if_pos rfl, hv₀]
      · rw [hchar, if_neg hk]
        exact h₀
  · intro p key
    refine ⟨rfl, rfl, rfl, rfl, rfl, ?_⟩
    intro k₀ v₀ h₀
    show cacheFind (cacheGet _process_ligand p.ligands key).2.1 k₀ = some v₀
    rw [cacheFind_cacheGet]
    by_cases hk : k₀ = key
    · subst hk
      rw [if_pos rfl, cacheGet_hit h₀]
    · rw [if_neg hk]
      exact h₀
  · intro p key m p' h
    unfold getMeasurement at h
    cases hE : cacheGetE (_process_measurement p._df) p.measurements key with
    | error e =>
      rw [hE] at h
      exact absurd h (by simp)
    | ok t =>
      obtain ⟨m₁, c₁, b₁⟩ := t
      rw [hE] at h
      simp only [Except.ok.injEq, Prod.mk.injEq] at h
      obtain ⟨hv, hp⟩ := h
      subst hv
      subst hp
      refine ⟨rfl, rfl, rfl, rfl, rfl, ?_⟩
      intro k₀ v₀ h₀
      have hchar := cacheFind_cacheGetE hE k₀
      show cacheFind c₁ k₀ = some v₀
      by_cases hk : k₀ = key
      · subst hk
        have hhit : cacheGetE (_process_measurement p._df) p.measurements k₀ =
            .ok (v₀, p.measurements, false) := cacheGetE_hit h₀
        rw [hhit] at hE
        simp only [Except.ok.injEq, Prod.mk.injEq] at hE
        obtain ⟨hv₀, -, -⟩ := hE
        rw [hchar, if_pos rfl, hv₀]
      · rw [hchar, if_neg hk]
        exact h₀

/-- C8 witness: a concrete kinase lookup leaves the measurements
dictionary untouched and keeps the pre-existing kinases entry. -/
theorem claim_C8_witness :
    sampleProviderPost.measurements = sampleProviderPre.measurements ∧
    cacheFind sampleProviderPost.kinases "OTHER" =
      some { sequence := "QQQ", header := "OTHER" } := by
  obtain ⟨-, -, -, -, hmeas, hpres⟩ :=
    claim_C8.1 sampleMapper sampleProviderPre "ABL2"
      { sequence := "MSEQ", header := "ABL2" } sampleProviderPost rfl
  exact ⟨hmeas, hpres "OTHER" { sequence := "QQQ", header := "OTHER" } rfl⟩

end KinoML
